import Mathlib

/-!
Shallow embedding of the strategy-decision and portfolio-simulation core of
the trading system (src/backtest.py and src/trading_strategy.py).

Conventions of the embedding:
* Python floats are modelled as exact rationals (ℚ); the statistics field
  produced with `np.sqrt` is modelled over ℝ since its value is irrational.
* Timestamps are opaque and modelled as ℕ.
* Pandas NaN cells (indicator warm-up rows, `shift(1)` at row 0) are
  modelled as `Option ℚ` with `none` for NaN; a pandas elementwise
  comparison involving NaN yields `False`, which the `Option` comparison
  helpers reproduce.
* The mutable `BacktestEngine` object is modelled as an explicit
  `EngineState` record threaded through the methods.
-/

namespace TradingSystem

/-! Constants of `src/config.py` (class `Config`) used by the backtest core. -/

namespace Config

/-- `Config.SHORT_MA_PERIOD` (src/config.py line 17). -/
def SHORT_MA_PERIOD : Nat := 10

/-- `Config.LONG_MA_PERIOD` (src/config.py line 18). -/
def LONG_MA_PERIOD : Nat := 30

/-- `Config.STOP_LOSS_PERCENT` (src/config.py line 25). -/
def STOP_LOSS_PERCENT : ℚ := 2

/-- `Config.TAKE_PROFIT_PERCENT` (src/config.py line 26). -/
def TAKE_PROFIT_PERCENT : ℚ := 5

/-- `Config.INITIAL_BALANCE` (src/config.py line 35). -/
def INITIAL_BALANCE : ℚ := 10000

end Config

/-- Position side: the engine stores `self.position ∈ {None, 'long', 'short'}`
(only `'long'` is ever assigned in src/backtest.py, but the `'short'` branches
of `execute_sell` and `update_equity_curve` exist in the source, so the side
is kept). `None` is modelled as `Option.none` around this type. -/
inductive Side where
  | long
  | short
deriving DecidableEq, Repr

/-- The `'type'` key of a trade record: `'buy'` or `'sell'`. -/
inductive TradeType where
  | buy
  | sell
deriving DecidableEq, Repr

/-- A trade record as appended by `execute_buy` / `execute_sell`
(src/backtest.py lines 198-205 and 229-237). The `'profit'` key is present
only on sell records, hence `Option ℚ`. -/
structure Trade where
  timestamp : Nat
  ttype : TradeType
  price : ℚ
  size : ℚ
  amount : ℚ
  profit : Option ℚ
  balance : ℚ
deriving DecidableEq, Repr

/-- An equity-curve point as appended by `update_equity_curve`
(src/backtest.py lines 291-295). -/
structure EquityPoint where
  timestamp : Nat
  equity : ℚ
  price : ℚ
deriving DecidableEq, Repr

/-- The `self.results` dict initialised in `BacktestEngine.__init__`
(src/backtest.py lines 35-44). The Sharpe field is a real number because the
source computes it with `np.sqrt`. -/
structure Results where
  total_trades : Nat
  winning_trades : Nat
  losing_trades : Nat
  total_return : ℚ
  max_drawdown : ℚ
  sharpe : ℝ
  win_rate : ℚ
  profit_factor : ℚ

/-- The mutable state of a `BacktestEngine` object (src/backtest.py
lines 23-44). -/
structure EngineState where
  initial_balance : ℚ
  balance : ℚ
  position : Option Side
  position_size : ℚ
  entry_price : ℚ
  trades : List Trade
  equity_curve : List EquityPoint
  results : Results

/-- The zero-default `self.results` dict (src/backtest.py lines 35-44). -/
def initResults : Results :=
  { total_trades := 0, winning_trades := 0, losing_trades := 0,
    total_return := 0, max_drawdown := 0, sharpe := 0,
    win_rate := 0, profit_factor := 0 }

/-- `BacktestEngine.__init__(initial_balance)` (src/backtest.py lines 16-44). -/
def initState (initial_balance : ℚ) : EngineState :=
  { initial_balance := initial_balance, balance := initial_balance,
    position := none, position_size := 0, entry_price := 0,
    trades := [], equity_curve := [], results := initResults }

/-- `BacktestEngine.execute_buy(price, timestamp)` (src/backtest.py
lines 187-211): allocates 90% of the balance, debits it, sets the position
to `'long'`, and appends a buy trade record. -/
def execute_buy (price : ℚ) (timestamp : Nat) (s : EngineState) : EngineState :=
  let trade_amount := s.balance * (9 / 10)
  let size := trade_amount / price
  let newBalance := s.balance - trade_amount
  { s with
      position := some Side.long,
      position_size := size,
      entry_price := price,
      balance := newBalance,
      trades := s.trades ++
        [{ timestamp := timestamp, ttype := TradeType.buy, price := price,
           size := size, amount := trade_amount, profit := none,
           balance := newBalance }] }

/-- `BacktestEngine.execute_sell(price, timestamp)` (src/backtest.py
lines 213-256): returns the state unchanged when no position is open
(`if not self.position: return`); otherwise credits the proceeds, appends a
sell record carrying the realized profit, updates the win/loss counters
(`profit > 0` wins, anything else loses), and resets the position. -/
def execute_sell (price : ℚ) (timestamp : Nat) (s : EngineState) : EngineState :=
  match s.position with
  | none => s
  | some side =>
    let trade_amount := s.position_size * price
    let newBalance := s.balance + trade_amount
    let profit : ℚ :=
      match side with
      | Side.long => trade_amount - s.position_size * s.entry_price
      | Side.short => s.position_size * s.entry_price - trade_amount
    { s with
        balance := newBalance,
        trades := s.trades ++
          [{ timestamp := timestamp, ttype := TradeType.sell, price := price,
             size := s.position_size, amount := trade_amount,
             profit := some profit, balance := newBalance }],
        results := { s.results with
          total_trades := s.results.total_trades + 1,
          winning_trades :=
            if profit > 0 then s.results.winning_trades + 1
            else s.results.winning_trades,
          losing_trades :=
            if profit > 0 then s.results.losing_trades
            else s.results.losing_trades + 1 },
        position := none,
        position_size := 0,
        entry_price := 0 }

/-- The boolean test of `BacktestEngine.check_exit_conditions`
(src/backtest.py lines 258-277): true exactly when the position is `'long'`
and the current price is at or below the stop-loss price or at or above the
take-profit price. In the source a `True` outcome also performs the
`execute_sell`; that side effect is applied at the call site in
`stepCandle`, which is equivalent because the sell happens exactly when the
test is true. -/
def check_exit_conditions (current_price : ℚ) (s : EngineState) : Bool :=
  match s.position with
  | some Side.long =>
      decide (current_price ≤ s.entry_price * (1 - Config.STOP_LOSS_PERCENT / 100)) ||
      decide (s.entry_price * (1 + Config.TAKE_PROFIT_PERCENT / 100) ≤ current_price)
  | _ => false

/-- `BacktestEngine.update_equity_curve(current_price, timestamp)`
(src/backtest.py lines 279-298). -/
def update_equity_curve (current_price : ℚ) (timestamp : Nat)
    (s : EngineState) : EngineState :=
  let current_equity :=
    match s.position with
    | some Side.long => s.balance + s.position_size * current_price
    | some Side.short => s.balance - s.position_size * current_price
    | none => s.balance
  { s with equity_curve := s.equity_curve ++
      [{ timestamp := timestamp, equity := current_equity,
         price := current_price }] }

/-- A row of the signal-enriched dataframe as consumed by
`execute_backtest` / `should_buy` / `should_sell`: the close price, the
timestamp index, and the boolean signal columns added by
`generate_signals`. -/
structure Row where
  timestamp : Nat
  close : ℚ
  buy_signal : Bool
  sell_signal : Bool
  force_sell : Bool
deriving DecidableEq, Repr

/-- `GoldenCrossStrategy.should_buy(df, current_index)`
(src/trading_strategy.py lines 135-158): false before `long_period`,
otherwise the row's `buy_signal` column. -/
def should_buy (long_period : Nat) (df : List Row) (i : Nat) : Bool :=
  if i < long_period then false
  else
    match df.get? i with
    | some row => row.buy_signal
    | none => false

/-- `GoldenCrossStrategy.should_sell(df, current_index)`
(src/trading_strategy.py lines 160-184): false before `long_period`,
otherwise `sell_signal or force_sell` of the row. -/
def should_sell (long_period : Nat) (df : List Row) (i : Nat) : Bool :=
  if i < long_period then false
  else
    match df.get? i with
    | some row => row.sell_signal || row.force_sell
    | none => false

/-- The signal-evaluation part of the loop body of
`BacktestEngine.execute_backtest` (src/backtest.py lines 165-171): take the
buy transition when the buy signal fires and no position is open, else the
sell transition when the sell signal fires and a position is open, else
leave the state unchanged. -/
def signalStep (long_period : Nat) (df : List Row) (i : Nat) (row : Row)
    (s : EngineState) : EngineState :=
  if should_buy long_period df i && s.position.isNone then
    execute_buy row.close row.timestamp s
  else if should_sell long_period df i && s.position.isSome then
    execute_sell row.close row.timestamp s
  else s

/-- One iteration of the loop of `BacktestEngine.execute_backtest`
(src/backtest.py lines 156-174), assembled from the exit check (with its
`continue`), the signal evaluation `signalStep` above, and the equity
update. -/
def stepCandle (long_period : Nat) (df : List Row) (i : Nat)
    (s : EngineState) : EngineState :=
  match df.get? i with
  | none => s
  | some row =>
    if s.position.isSome && check_exit_conditions row.close s then
      execute_sell row.close row.timestamp s
    else
      update_equity_curve row.close row.timestamp
        (signalStep long_period df i row s)

/-- The `for i in range(long_period, len(df))` loop of `execute_backtest`,
expressed as a fold of `stepCandle` over the index list. -/
def backtestLoop (long_period : Nat) (df : List Row) :
    List Nat → EngineState → EngineState
  | [], s => s
  | i :: rest, s => backtestLoop long_period df rest (stepCandle long_period df i s)

/-- The final position clean-up of `execute_backtest` (src/backtest.py
lines 176-180): any still-open position is closed at the last candle's
close (`df.iloc[-1]`, here `getLast?`; the `none` arm is unreachable from a
run that opened a position, since that requires a nonempty dataframe). -/
def finalClose (df : List Row) (s : EngineState) : EngineState :=
  if s.position.isSome then
    match df.getLast? with
    | some row => execute_sell row.close row.timestamp s
    | none => s
  else s

/-- `BacktestEngine.execute_backtest(df, strategy)` (src/backtest.py
lines 151-185): run the per-candle loop from `long_period` to `len(df)-1`,
then force-close any still-open position at the last candle's close. -/
def execute_backtest (long_period : Nat) (df : List Row)
    (s : EngineState) : EngineState :=
  finalClose df
    (backtestLoop long_period df
      (List.range' long_period (df.length - long_period)) s)

/-- The inner loop of `BacktestEngine.calculate_max_drawdown`
(src/backtest.py lines 336-341): track the running peak and the largest
percentage drawdown seen so far. -/
def drawdownLoop : List ℚ → ℚ → ℚ → ℚ
  | [], _, max_dd => max_dd
  | equity :: rest, peak, max_dd =>
    let peak' := if equity > peak then equity else peak
    let drawdown := (peak' - equity) / peak' * 100
    drawdownLoop rest peak' (if drawdown > max_dd then drawdown else max_dd)

/-- `BacktestEngine.calculate_max_drawdown` (src/backtest.py lines 326-346):
no-op on an empty equity curve; otherwise scans the equity values with the
peak initialised to the first value and `max_dd = 0`. -/
def calculate_max_drawdown (s : EngineState) : EngineState :=
  match s.equity_curve with
  | [] => s
  | p :: rest =>
    let equity_values := (p :: rest).map EquityPoint.equity
    { s with results := { s.results with
        max_drawdown := drawdownLoop equity_values p.equity 0 } }

/-- The per-step returns list of `calculate_sharpe_ratio`
(src/backtest.py lines 355-360): `(e_i - e_{i-1}) / e_{i-1}` over
consecutive equity values. -/
def stepReturns : ℚ → List ℚ → List ℚ
  | _, [] => []
  | prev, curr :: rest => (curr - prev) / prev :: stepReturns curr rest

/-- `BacktestEngine.calculate_sharpe_ratio` (src/backtest.py lines 348-371):
no-op when the equity curve has fewer than two points; otherwise computes
per-step returns, their mean and population standard deviation (numpy
`np.std`, i.e. `sqrt` of the mean squared deviation), and when the standard
deviation is positive stores `mean / std * sqrt 252`. The square roots are
irrational, so this one statistic lives in ℝ. -/
noncomputable def calculate_sharpe (s : EngineState) : EngineState :=
  if s.equity_curve.length < 2 then s
  else
    match s.equity_curve.map EquityPoint.equity with
    | [] => s
    | e0 :: es =>
      let returns := stepReturns e0 es
      if returns.isEmpty then s
      else
        let mean_return : ℚ := returns.sum / returns.length
        let variance : ℚ :=
          (returns.map (fun r => (r - mean_return) ^ 2)).sum / returns.length
        let std_return : ℝ := Real.sqrt (variance : ℝ)
        if 0 < std_return then
          { s with results := { s.results with
              sharpe := (mean_return : ℝ) / std_return * Real.sqrt 252 } }
        else s

/-- The realized profits of the sell records in a trade log, in order
(src/backtest.py lines 379-384: `trade['type'] == 'sell' and 'profit' in
trade`; every sell record carries a profit and no buy record does). -/
def sellProfits (trades : List Trade) : List ℚ :=
  trades.filterMap (fun tr =>
    if tr.ttype = TradeType.sell then tr.profit else none)

/-- The `winning_profits` list of `calculate_profit_factor`
(src/backtest.py lines 381-382): realized sell profits strictly above 0. -/
def winning_profits (trades : List Trade) : List ℚ :=
  (sellProfits trades).filter (fun p => p > 0)

/-- The `losing_profits` list of `calculate_profit_factor`
(src/backtest.py lines 383-384): absolute values of realized sell profits
not strictly above 0 (a zero profit lands here). -/
def losing_profits (trades : List Trade) : List ℚ :=
  ((sellProfits trades).filter (fun p => ¬ p > 0)).map (fun p => |p|)

/-- `BacktestEngine.calculate_profit_factor` (src/backtest.py
lines 373-393): stores `total_wins / total_losses` only when
`total_losses > 0`; otherwise the field keeps its previous value. -/
def calculate_profit_factor (s : EngineState) : EngineState :=
  let total_wins := (winning_profits s.trades).sum
  let total_losses := (losing_profits s.trades).sum
  if total_losses > 0 then
    { s with results := { s.results with
        profit_factor := total_wins / total_losses } }
  else s

/-- `BacktestEngine.calculate_results` (src/backtest.py lines 300-324):
returns unchanged when the trade log is empty; otherwise stores the total
return percentage, the win rate (only when there was at least one trade),
and then runs the max-drawdown, Sharpe and profit-factor updates. -/
noncomputable def calculate_results (s : EngineState) : EngineState :=
  if s.trades.isEmpty then s
  else
    let s1 := { s with results := { s.results with
        total_return :=
          (s.balance - s.initial_balance) / s.initial_balance * 100 } }
    let s2 :=
      if s1.results.total_trades > 0 then
        { s1 with results := { s1.results with
            win_rate :=
              (s1.results.winning_trades : ℚ) / (s1.results.total_trades : ℚ)
                * 100 } }
      else s1
    calculate_profit_factor (calculate_sharpe (calculate_max_drawdown s2))

/-- An OHLCV candle as produced by `get_historical_data`
(src/backtest.py lines 124-139). The `'open'` key is named `open_price`
as in the source's local variable, because `open` is a Lean keyword. -/
structure Candle where
  timestamp : Nat
  open_price : ℚ
  high : ℚ
  low : ℚ
  close : ℚ
  volume : ℚ
deriving DecidableEq, Repr

/-- `BacktestEngine.run_backtest` (src/backtest.py lines 46-89) with the
data source abstracted: the candle sequence is an input (the source's
`get_historical_data` is a dummy generator outside the core), and the
indicator/signal stage `strategy.calculate_indicators` followed by
`strategy.generate_signals` (pandas/ta rolling-window arithmetic) is
abstracted as the `pipeline` argument producing the signal-enriched rows.
The engine-level guard is kept verbatim: when the candle count is below
`strategy.long_period` (`Config.LONG_MA_PERIOD`) the run aborts with `None`
before any signal is evaluated, leaving the freshly initialised engine
state untouched; otherwise it executes the backtest and the result
statistics. -/
noncomputable def run_backtest (pipeline : List Candle → List Row)
    (candles : List Candle) : Option Results × EngineState :=
  let s := initState Config.INITIAL_BALANCE
  if candles.length < Config.LONG_MA_PERIOD then (none, s)
  else
    let df := pipeline candles
    let s1 := execute_backtest Config.LONG_MA_PERIOD df s
    let s2 := calculate_results s1
    (some s2.results, s2)

/-- A dataframe row after `GoldenCrossStrategy.calculate_indicators`
(src/trading_strategy.py lines 27-64): the raw close and volume plus the
derived indicator columns. Indicator cells are `Option ℚ` because rolling
windows leave NaN in the warm-up rows. -/
structure IndRow where
  close : ℚ
  volume : ℚ
  MA_short : Option ℚ
  MA_long : Option ℚ
  RSI : Option ℚ
  BB_upper : Option ℚ
  BB_lower : Option ℚ
  MACD : Option ℚ
  MACD_signal : Option ℚ
  Volume_MA : Option ℚ
deriving DecidableEq, Repr

/-- Pandas elementwise `>` on possibly-NaN cells: any comparison with NaN
is `False`. -/
def gtO : Option ℚ → Option ℚ → Bool
  | some a, some b => decide (b < a)
  | _, _ => false

/-- Pandas elementwise `<=` on possibly-NaN cells: `False` whenever either
side is NaN. -/
def leO : Option ℚ → Option ℚ → Bool
  | some a, some b => decide (a ≤ b)
  | _, _ => false

/-- Pandas elementwise `<` on possibly-NaN cells. -/
def ltO : Option ℚ → Option ℚ → Bool
  | some a, some b => decide (a < b)
  | _, _ => false

/-- Pandas elementwise `>=` on possibly-NaN cells. -/
def geO : Option ℚ → Option ℚ → Bool
  | some a, some b => decide (b ≤ a)
  | _, _ => false

/-- `df.shift(1)` row access: the previous row, NaN (absent) at index 0. -/
def prevRow (df : List IndRow) (i : Nat) : Option IndRow :=
  if i = 0 then none else df.get? (i - 1)

/-- The `golden_cross` column of `generate_signals`
(src/trading_strategy.py lines 80-83):
`(MA_short > MA_long) & (MA_short.shift(1) <= MA_long.shift(1))`. -/
def golden_cross (df : List IndRow) (i : Nat) : Bool :=
  match df.get? i with
  | none => false
  | some cur =>
    gtO cur.MA_short cur.MA_long &&
    leO ((prevRow df i).bind IndRow.MA_short) ((prevRow df i).bind IndRow.MA_long)

/-- The `dead_cross` column of `generate_signals`
(src/trading_strategy.py lines 85-88). -/
def dead_cross (df : List IndRow) (i : Nat) : Bool :=
  match df.get? i with
  | none => false
  | some cur =>
    ltO cur.MA_short cur.MA_long &&
    geO ((prevRow df i).bind IndRow.MA_short) ((prevRow df i).bind IndRow.MA_long)

/-- The `macd_bullish` filter of `generate_signals`
(src/trading_strategy.py line 100):
`(MACD > MACD_signal) & (MACD.shift(1) <= MACD_signal.shift(1))`. -/
def macd_bullish (df : List IndRow) (i : Nat) : Bool :=
  match df.get? i with
  | none => false
  | some cur =>
    gtO cur.MACD cur.MACD_signal &&
    leO ((prevRow df i).bind IndRow.MACD) ((prevRow df i).bind IndRow.MACD_signal)

/-- The `macd_bearish` filter of `generate_signals`
(src/trading_strategy.py line 101). -/
def macd_bearish (df : List IndRow) (i : Nat) : Bool :=
  match df.get? i with
  | none => false
  | some cur =>
    ltO cur.MACD cur.MACD_signal &&
    geO ((prevRow df i).bind IndRow.MACD) ((prevRow df i).bind IndRow.MACD_signal)

/-- The `buy_signal` column of `generate_signals`
(src/trading_strategy.py lines 107-113): `golden_cross & ~(RSI > 70) &
~(close > BB_upper) & macd_bullish & (volume > Volume_MA)`. -/
def buy_signal (df : List IndRow) (i : Nat) : Bool :=
  match df.get? i with
  | none => false
  | some cur =>
    golden_cross df i &&
    !(gtO cur.RSI (some 70)) &&
    !(gtO (some cur.close) cur.BB_upper) &&
    macd_bullish df i &&
    gtO (some cur.volume) cur.Volume_MA

/-- The `sell_signal` column of `generate_signals`
(src/trading_strategy.py lines 115-121): `dead_cross & ~(RSI < 30) &
~(close < BB_lower) & macd_bearish & (volume > Volume_MA)`. -/
def sell_signal (df : List IndRow) (i : Nat) : Bool :=
  match df.get? i with
  | none => false
  | some cur =>
    dead_cross df i &&
    !(ltO cur.RSI (some 30)) &&
    !(ltO (some cur.close) cur.BB_lower) &&
    macd_bearish df i &&
    gtO (some cur.volume) cur.Volume_MA

/-- The realized profit `execute_sell` would record from state `s` at
`price` (src/backtest.py lines 220-227); 0 when no position is open. -/
def sellProfit (price : ℚ) (s : EngineState) : ℚ :=
  match s.position with
  | some Side.long => s.position_size * price - s.position_size * s.entry_price
  | some Side.short => s.position_size * s.entry_price - s.position_size * price
  | none => 0

/-- Validity scan for a trade-type sequence: starting from `openPos`
(whether a position is currently open), a `buy` is legal only when flat and
opens the position, a `sell` only when open and closes it; the result is
`none` on an illegal sequence and `some b` with the final open flag
otherwise. A log `l` with `scanLog l false = some b` strictly alternates
buy, sell, buy, ... starting with a buy. -/
def scanLog : List TradeType → Bool → Option Bool
  | [], openPos => some openPos
  | t :: rest, openPos =>
    match t, openPos with
    | TradeType.buy, false => scanLog rest true
    | TradeType.sell, true => scanLog rest false
    | _, _ => none

/-- The number of loop iterations of `execute_backtest` (over the given
index list, from the given state) on which the stop-loss/take-profit exit
fires, i.e. on which the source's `continue` skips the equity-curve
update. -/
def exitSkips (long_period : Nat) (df : List Row) :
    List Nat → EngineState → Nat
  | [], _ => 0
  | i :: rest, s =>
    (match df.get? i with
     | none => 0
     | some row =>
       if s.position.isSome && check_exit_conditions row.close s then 1 else 0)
    + exitSkips long_period df rest (stepCandle long_period df i s)

/-- The ledger invariant maintained by the backtest loop: a flat engine
holds no position size, and the trade log read from an initially flat
engine is a legal alternation whose final open flag agrees with the current
position. -/
def EngineInv (s : EngineState) : Prop :=
  (s.position = none → s.position_size = 0) ∧
  scanLog (s.trades.map Trade.ttype) false = some s.position.isSome

/-- Concrete engine state with an open long position entered at price 100
from a fresh 10000-balance engine: balance 1000, size 90. -/
def sLong100 : EngineState := execute_buy 100 0 (initState 10000)

/-- `sLong100` closed by a sell at price 110: the round trip of the
documented concrete scenario. -/
def sRoundTrip : EngineState := execute_sell 110 1 sLong100

/-- A three-candle signal dataframe for a run with `long_period = 1`: the
candle at index 1 carries a buy signal at close 100, and the candle at
index 2 closes at 90, below the stop-loss price 98, so the exit check
fires there. -/
def skipDf : List Row :=
  [ { timestamp := 0, close := 100, buy_signal := false, sell_signal := false,
      force_sell := false },
    { timestamp := 1, close := 100, buy_signal := true, sell_signal := false,
      force_sell := false },
    { timestamp := 2, close := 90, buy_signal := false, sell_signal := false,
      force_sell := false } ]

/-- A single candle closing at 97 with no signals set. -/
def stopRow : Row :=
  { timestamp := 5, close := 97, buy_signal := false, sell_signal := false,
    force_sell := false }

/-- A one-row dataframe holding `stopRow`. -/
def stopDf : List Row := [stopRow]

/-- Indicator row playing the part of index `i - 1` in the buy-signal
example: short MA still at or below the long MA, MACD still at or below
its signal line. -/
def wRowPrev : IndRow :=
  { close := 100, volume := 150, MA_short := some 10, MA_long := some 11,
    RSI := some 50, BB_upper := some 120, BB_lower := some 80,
    MACD := some 1, MACD_signal := some 2, Volume_MA := some 100 }

/-- Indicator row playing the part of index `i` in the buy-signal example:
golden cross and MACD cross both completed, RSI 50, close within the upper
band, volume above its moving average. -/
def wRowCur : IndRow :=
  { close := 100, volume := 150, MA_short := some 12, MA_long := some 11,
    RSI := some 50, BB_upper := some 120, BB_lower := some 80,
    MACD := some 3, MACD_signal := some 2, Volume_MA := some 100 }

/-- Two-row indicator dataframe for the buy-signal example. -/
def wIndDf : List IndRow := [wRowPrev, wRowCur]

/-! Supporting lemmas about the engine operations. -/

theorem execute_buy_equity (price : ℚ) (t : Nat) (s : EngineState) :
    (execute_buy price t s).equity_curve = s.equity_curve := rfl

theorem execute_sell_equity (price : ℚ) (t : Nat) (s : EngineState) :
    (execute_sell price t s).equity_curve = s.equity_curve := by
  cases hp : s.position <;> simp [execute_sell, hp]

theorem execute_sell_position (price : ℚ) (t : Nat) (s : EngineState) :
    (execute_sell price t s).position = none := by
  cases hp : s.position <;> simp [execute_sell, hp]

theorem signalStep_equity (lp : Nat) (df : List Row) (i : Nat) (row : Row)
    (s : EngineState) :
    (signalStep lp df i row s).equity_curve = s.equity_curve := by
  unfold signalStep
  by_cases h1 : (should_buy lp df i && s.position.isNone) = true
  · simp [h1, execute_buy_equity]
  · by_cases h2 : (should_sell lp df i && s.position.isSome) = true <;>
      simp [h1, h2, execute_sell_equity]

theorem finalClose_equity (df : List Row) (s : EngineState) :
    (finalClose df s).equity_curve = s.equity_curve := by
  unfold finalClose
  split
  · cases df.getLast? <;> simp [execute_sell_equity]
  · rfl

theorem scanLog_append (l l' : List TradeType) (b : Bool) :
    scanLog (l ++ l') b = (scanLog l b).bind fun b' => scanLog l' b' := by
  induction l generalizing b with
  | nil => simp [scanLog]
  | cons t rest ih => cases t <;> cases b <;> simp [scanLog, ih]

theorem inv_initState (b : ℚ) : EngineInv (initState b) :=
  ⟨fun _ => rfl, rfl⟩

theorem inv_execute_buy (price : ℚ) (t : Nat) (s : EngineState)
    (h : EngineInv s) (hp : s.position = none) :
    EngineInv (execute_buy price t s) := by
  constructor
  · intro hnone
    simp [execute_buy] at hnone
  · have h2 := h.2
    simp [execute_buy, List.map_append, scanLog_append, h2, hp, scanLog]

theorem inv_execute_sell (price : ℚ) (t : Nat) (s : EngineState)
    (h : EngineInv s) : EngineInv (execute_sell price t s) := by
  cases hp : s.position with
  | none => simpa [execute_sell, hp] using h
  | some side =>
    constructor
    · intro _
      simp [execute_sell, hp]
    · have h2 := h.2
      simp [execute_sell, hp, List.map_append, scanLog_append, h2, scanLog]

theorem inv_update_equity (price : ℚ) (t : Nat) (s : EngineState)
    (h : EngineInv s) : EngineInv (update_equity_curve price t s) := h

theorem inv_signalStep (lp : Nat) (df : List Row) (i : Nat) (row : Row)
    (s : EngineState) (h : EngineInv s) :
    EngineInv (signalStep lp df i row s) := by
  unfold signalStep
  split
  · next hcond =>
    simp only [Bool.and_eq_true] at hcond
    exact inv_execute_buy _ _ _ h (Option.isNone_iff_eq_none.mp hcond.2)
  · split
    · exact inv_execute_sell _ _ _ h
    · exact h

theorem inv_stepCandle (lp : Nat) (df : List Row) (i : Nat)
    (s : EngineState) (h : EngineInv s) :
    EngineInv (stepCandle lp df i s) := by
  unfold stepCandle
  split
  · exact h
  · split
    · exact inv_execute_sell _ _ _ h
    · exact inv_update_equity _ _ _ (inv_signalStep _ _ _ _ _ h)

theorem inv_backtestLoop (lp : Nat) (df : List Row) :
    ∀ (idxs : List Nat) (s : EngineState), EngineInv s →
      EngineInv (backtestLoop lp df idxs s)
  | [], _, h => h
  | i :: rest, s, h =>
    inv_backtestLoop lp df rest _ (inv_stepCandle lp df i s h)

theorem inv_finalClose (df : List Row) (s : EngineState) (h : EngineInv s) :
    EngineInv (finalClose df s) := by
  unfold finalClose
  split
  · cases df.getLast? with
    | none => exact h
    | some row => exact inv_execute_sell _ _ _ h
  · exact h

theorem inv_execute_backtest (lp : Nat) (df : List Row) (s : EngineState)
    (h : EngineInv s) : EngineInv (execute_backtest lp df s) :=
  inv_finalClose _ _ (inv_backtestLoop _ _ _ _ h)

theorem backtestLoop_nil_df (lp : Nat) :
    ∀ (idxs : List Nat) (s : EngineState), backtestLoop lp [] idxs s = s
  | [], _ => rfl
  | _ :: rest, s => backtestLoop_nil_df lp rest s

theorem finalClose_nil (s : EngineState) : finalClose [] s = s := by
  unfold finalClose
  split <;> rfl

theorem finalClose_flat (df : List Row) (s : EngineState) (hdf : df ≠ []) :
    (finalClose df s).position = none := by
  unfold finalClose
  split
  · obtain ⟨x, hx⟩ : ∃ x, df.getLast? = some x :=
      ⟨df.getLast hdf, List.getLast?_eq_getLast df hdf⟩
    rw [hx]
    exact execute_sell_position _ _ _
  · next h => exact Option.not_isSome_iff_eq_none.mp (by simpa using h)

theorem execute_backtest_flat (lp : Nat) (df : List Row) (b : ℚ) :
    (execute_backtest lp df (initState b)).position = none := by
  cases df with
  | nil =>
    show (finalClose [] (backtestLoop lp [] _ (initState b))).position = none
    rw [backtestLoop_nil_df, finalClose_nil]
    rfl
  | cons a l => exact finalClose_flat _ _ (by simp)

theorem stepCandle_equity_length (lp : Nat) (df : List Row) (i : Nat)
    (s : EngineState) (row : Row) (hrow : df.get? i = some row) :
    (stepCandle lp df i s).equity_curve.length +
      (if s.position.isSome && check_exit_conditions row.close s then 1 else 0) =
      s.equity_curve.length + 1 := by
  unfold stepCandle
  rw [hrow]
  by_cases hex : (s.position.isSome && check_exit_conditions row.close s) = true
  · simp [hex, execute_sell_equity]
  · simp [hex, update_equity_curve, signalStep_equity]

theorem backtestLoop_equity_length (lp : Nat) (df : List Row) :
    ∀ (idxs : List Nat) (s : EngineState), (∀ i ∈ idxs, i < df.length) →
      (backtestLoop lp df idxs s).equity_curve.length +
        exitSkips lp df idxs s =
        s.equity_curve.length + idxs.length := by
  intro idxs
  induction idxs with
  | nil => intro s _; simp [backtestLoop, exitSkips]
  | cons i rest ih =>
    intro s hvalid
    have hi : i < df.length := hvalid i (List.mem_cons_self i rest)
    obtain ⟨row, hrow⟩ : ∃ row, df.get? i = some row := by
      rw [List.get?_eq_get hi]
      exact ⟨_, rfl⟩
    have hstep := stepCandle_equity_length lp df i s row hrow
    have hrest := ih (stepCandle lp df i s)
      (fun j hj => hvalid j (List.mem_cons_of_mem _ hj))
    cases hex : s.position.isSome && check_exit_conditions row.close s with
    | true =>
      simp only [hex, if_true] at hstep
      simp only [backtestLoop, exitSkips, hrow, hex, if_true, List.length_cons]
      omega
    | false =>
      simp only [hex, if_false] at hstep
      simp only [backtestLoop, exitSkips, hrow, hex, if_false, List.length_cons]
      omega

/-! Claim theorems. -/

theorem sLong100_eq : sLong100 =
    { initial_balance := 10000, balance := 1000, position := some Side.long,
      position_size := 90, entry_price := 100,
      trades := [{ timestamp := 0, ttype := TradeType.buy, price := 100,
                   size := 90, amount := 9000, profit := none,
                   balance := 1000 }],
      equity_curve := [], results := initResults } := by
  norm_num [sLong100, execute_buy, initState, EngineState.mk.injEq,
    Trade.mk.injEq]

theorem sRoundTrip_eq : sRoundTrip =
    { initial_balance := 10000, balance := 10900, position := none,
      position_size := 0, entry_price := 0,
      trades := [{ timestamp := 0, ttype := TradeType.buy, price := 100,
                   size := 90, amount := 9000, profit := none,
                   balance := 1000 },
                 { timestamp := 1, ttype := TradeType.sell, price := 110,
                   size := 90, amount := 9900, profit := some 900,
                   balance := 10900 }],
      equity_curve := [],
      results := { total_trades := 1, winning_trades := 1, losing_trades := 0,
                   total_return := 0, max_drawdown := 0, sharpe := 0,
                   win_rate := 0, profit_factor := 0 } } := by
  unfold sRoundTrip
  rw [sLong100_eq]
  norm_num [execute_sell, initResults, EngineState.mk.injEq, Trade.mk.injEq,
    Results.mk.injEq]

/-- C4: from `initial_balance = 10000` and the 0.9 allocation fraction, a
buy at price 100 followed by a sell at price 110 with no intervening trades
yields size 90, trade amount 9000, balance 1000 after the buy, proceeds
9900, realized profit 900, balance 10900 after the sell, total return 9%,
one winning and no losing trade, and profit factor 0. -/
theorem C4_concrete_round_trip :
    sLong100.position_size = 90 ∧
    sLong100.balance = 1000 ∧
    sLong100.trades =
      [{ timestamp := 0, ttype := TradeType.buy, price := 100, size := 90,
         amount := 9000, profit := none, balance := 1000 }] ∧
    sRoundTrip.balance = 10900 ∧
    sRoundTrip.trades =
      [{ timestamp := 0, ttype := TradeType.buy, price := 100, size := 90,
         amount := 9000, profit := none, balance := 1000 },
       { timestamp := 1, ttype := TradeType.sell, price := 110, size := 90,
         amount := 9900, profit := some 900, balance := 10900 }] ∧
    (calculate_results sRoundTrip).results.total_return = 9 ∧
    (calculate_results sRoundTrip).results.winning_trades = 1 ∧
    (calculate_results sRoundTrip).results.losing_trades = 0 ∧
    (calculate_results sRoundTrip).results.profit_factor = 0 := by
  refine ⟨?_, ?_, ?_, ?_, ?_, ?_, ?_, ?_, ?_⟩ <;>
    norm_num [sLong100_eq, sRoundTrip_eq, calculate_results,
      calculate_max_drawdown, calculate_sharpe, calculate_profit_factor,
      winning_profits, losing_profits, sellProfits, initResults,
      List.filterMap_cons, List.filter_cons, List.sum_cons]

/-- C6: when the candle sequence is shorter than `long_period`
(`Config.LONG_MA_PERIOD`), `run_backtest` aborts before evaluating any
signal (the result does not depend on the indicator/signal pipeline at
all), records no trades, and leaves every statistic at its zero-default. -/
theorem C6_insufficient_data (pipeline : List Candle → List Row)
    (candles : List Candle)
    (h : candles.length < Config.LONG_MA_PERIOD) :
    run_backtest pipeline candles =
      (none, initState Config.INITIAL_BALANCE) ∧
    (initState Config.INITIAL_BALANCE).trades = [] ∧
    (initState Config.INITIAL_BALANCE).results = initResults := by
  refine ⟨?_, rfl, rfl⟩
  simp [run_backtest, h]

/-- C6 witness: the empty candle sequence is shorter than the long period
and the guard fires on it. -/
theorem C6_insufficient_data_witness :
    ([] : List Candle).length < Config.LONG_MA_PERIOD ∧
    run_backtest (fun _ => []) [] =
      (none, initState Config.INITIAL_BALANCE) := by
  refine ⟨by decide, ?_⟩
  exact (C6_insufficient_data (fun _ => []) [] (by decide)).1

/-- C8 counterexample: `execute_sell` called on a freshly initialised
(FLAT) engine returns normally and leaves the state completely unchanged —
no error of any kind is signalled, contradicting the claim that a sell in
the FLAT state surfaces an `InvalidTransitionError`. -/
theorem C8_counterexample :
    execute_sell 100 0 (initState 10000) = initState 10000 := rfl

/-- C8 amended: a sell while FLAT is a silent no-op — `execute_sell`
returns normally with the state unchanged whenever no position is open
(src/backtest.py lines 216-217), rather than signalling an error. -/
theorem C8_flat_sell_silent_noop (price : ℚ) (t : Nat) (s : EngineState)
    (h : s.position = none) : execute_sell price t s = s := by
  simp [execute_sell, h]

/-- C8 witness: a concrete FLAT engine on which the amended statement is
instantiated. -/
theorem C8_flat_sell_silent_noop_witness :
    (initState 5000).position = none ∧
    execute_sell 55 3 (initState 5000) = initState 5000 :=
  ⟨rfl, C8_flat_sell_silent_noop 55 3 (initState 5000) rfl⟩

/-- C9: the backtest pipeline is a pure function of the candle sequence
and the signal pipeline, so two runs over identical inputs return the
identical trade log and statistics. -/
theorem C9_deterministic (pipeline : List Candle → List Row)
    (c1 c2 : List Candle) (h : c1 = c2) :
    run_backtest pipeline c1 = run_backtest pipeline c2 := by
  rw [h]

/-- C9 witness: determinism instantiated on a concrete input. -/
theorem C9_deterministic_witness :
    ([] : List Candle) = [] ∧
    run_backtest (fun _ => []) [] = run_backtest (fun _ => []) [] :=
  ⟨rfl, C9_deterministic (fun _ => []) [] [] rfl⟩

/-- C1 counterexample: in the run over `skipDf` with `long_period = 1`,
two candle indices (1 and 2) are processed, but the stop-loss exit at
index 2 executes `continue` before the equity-curve update, so only one
EquityPoint is recorded — not one per processed candle as claimed. -/
theorem C1_counterexample :
    (execute_backtest 1 skipDf (initState 10000)).equity_curve.length ≠
      skipDf.length - 1 := by
  norm_num [execute_backtest, finalClose, backtestLoop, stepCandle,
    signalStep, should_buy, should_sell, check_exit_conditions, execute_buy,
    execute_sell, update_equity_curve, skipDf, initState, initResults,
    Config.STOP_LOSS_PERCENT, Config.TAKE_PROFIT_PERCENT, List.range']

/-- C1 amended: exactly one EquityPoint is appended for every processed
candle on which the stop-loss/take-profit exit does not fire; a candle on
which it fires appends none (the source's `continue` skips the update), so
the equity-curve length plus the number of exit-skipped candles equals the
number of processed candles. -/
theorem C1_equity_point_per_candle (long_period : Nat) (df : List Row)
    (b : ℚ) (h : long_period ≤ df.length) :
    (execute_backtest long_period df (initState b)).equity_curve.length +
      exitSkips long_period df
        (List.range' long_period (df.length - long_period)) (initState b) =
      df.length - long_period := by
  unfold execute_backtest
  rw [finalClose_equity]
  have hvalid : ∀ i ∈ List.range' long_period (df.length - long_period),
      i < df.length := by
    intro i hi
    rw [List.mem_range'_1] at hi
    omega
  have := backtestLoop_equity_length long_period df
    (List.range' long_period (df.length - long_period)) (initState b) hvalid
  simpa [initState, List.length_range'] using this

/-- C1 amended witness: on `skipDf` with `long_period = 1`, one equity
point plus one exit-skipped candle accounts for the two processed
candles. -/
theorem C1_equity_point_per_candle_witness :
    1 ≤ skipDf.length ∧
    (execute_backtest 1 skipDf (initState 10000)).equity_curve.length +
      exitSkips 1 skipDf (List.range' 1 (skipDf.length - 1))
        (initState 10000) =
      skipDf.length - 1 :=
  ⟨by norm_num [skipDf],
   C1_equity_point_per_candle 1 skipDf 10000 (by norm_num [skipDf])⟩

/-- C3: if a position is LONG at candle `i` and the candle's close is at
or below the stop-loss price or at or above the take-profit price
(entry × (1 ∓ pct/100) with the configured 2% / 5%), the loop iteration
reduces to `execute_sell` at the candle's current close — the exit happens
at the current price and no buy/sell-signal evaluation and no equity
update take place on that candle. -/
theorem C3_exit_before_signals (long_period : Nat) (df : List Row)
    (i : Nat) (row : Row) (s : EngineState)
    (hrow : df.get? i = some row) (hpos : s.position = some Side.long)
    (htrig :
      row.close ≤ s.entry_price * (1 - Config.STOP_LOSS_PERCENT / 100) ∨
      s.entry_price * (1 + Config.TAKE_PROFIT_PERCENT / 100) ≤ row.close) :
    stepCandle long_period df i s = execute_sell row.close row.timestamp s := by
  unfold stepCandle
  rw [hrow]
  have hc : check_exit_conditions row.close s = true := by
    rcases htrig with ht | ht <;> simp [check_exit_conditions, hpos, ht]
  simp [hpos, hc]

/-- C3 witness: with entry price 100 the stop-loss price is
`100 × (1 − 2/100) = 98`, and a candle closing at 97 triggers the
stop-loss exit at price 97. -/
theorem C3_exit_before_signals_witness :
    stopDf.get? 0 = some stopRow ∧
    sLong100.position = some Side.long ∧
    stopRow.close ≤ sLong100.entry_price *
      (1 - Config.STOP_LOSS_PERCENT / 100) ∧
    stepCandle Config.LONG_MA_PERIOD stopDf 0 sLong100 =
      execute_sell 97 5 sLong100 :=
  ⟨rfl, rfl,
   by norm_num [stopRow, sLong100_eq, Config.STOP_LOSS_PERCENT],
   C3_exit_before_signals Config.LONG_MA_PERIOD stopDf 0 stopRow sLong100
     rfl (by rw [sLong100_eq])
     (Or.inl (by norm_num [stopRow, sLong100_eq, Config.STOP_LOSS_PERCENT]))⟩

/-- C5: every backtest run from a fresh engine ends FLAT — after
`execute_backtest` (whose last step force-closes any open position at the
final candle's close) the position is `None` and the position size is 0. -/
theorem C5_ends_flat (long_period : Nat) (df : List Row) (b : ℚ)
    (h : long_period ≤ df.length) :
    (execute_backtest long_period df (initState b)).position = none ∧
    (execute_backtest long_period df (initState b)).position_size = 0 := by
  have hflat := execute_backtest_flat long_period df b
  have hinv := inv_execute_backtest long_period df (initState b)
    (inv_initState b)
  exact ⟨hflat, hinv.1 hflat⟩

/-- C5 witness: the run over the one-candle dataframe `stopDf` with
`long_period = 0` ends FLAT with position size 0. -/
theorem C5_ends_flat_witness :
    0 ≤ stopDf.length ∧
    (execute_backtest 0 stopDf (initState 10000)).position = none ∧
    (execute_backtest 0 stopDf (initState 10000)).position_size = 0 :=
  ⟨Nat.zero_le _, C5_ends_flat 0 stopDf 10000 (Nat.zero_le _)⟩

/-- C10: the trade log of any backtest run from a fresh engine is a legal
alternation — scanned from the flat start, buys and sells strictly
alternate and the first record, if any, is a buy (every sell is
immediately preceded by a buy). -/
theorem C10_trades_alternate (long_period : Nat) (df : List Row) (b : ℚ) :
    (scanLog
      ((execute_backtest long_period df (initState b)).trades.map
        Trade.ttype) false).isSome = true := by
  have hinv := inv_execute_backtest long_period df (initState b)
    (inv_initState b)
  rw [hinv.2]
  rfl

/-- C2: at any index whose own and previous indicator values are all
defined, the `buy_signal` column is true exactly when all five conditions
hold simultaneously: the golden cross (short MA was at or below the long
MA and is now above it), RSI at or below 70, close at or below the upper
Bollinger band, the MACD cross (MACD was at or below its signal line and
is now above it), and volume above its moving average. -/
theorem C2_buy_signal_iff (df : List IndRow) (i : Nat) (cur prev : IndRow)
    (hi : i ≠ 0)
    (hcur : df.get? i = some cur) (hprev : df.get? (i - 1) = some prev)
    (ms ml ms' ml' rsi bbu macd sig macd' sig' vma : ℚ)
    (h1 : cur.MA_short = some ms) (h2 : cur.MA_long = some ml)
    (h3 : prev.MA_short = some ms') (h4 : prev.MA_long = some ml')
    (h5 : cur.RSI = some rsi) (h6 : cur.BB_upper = some bbu)
    (h7 : cur.MACD = some macd) (h8 : cur.MACD_signal = some sig)
    (h9 : prev.MACD = some macd') (h10 : prev.MACD_signal = some sig')
    (h11 : cur.Volume_MA = some vma) :
    (buy_signal df i = true ↔
      ((ms' ≤ ml' ∧ ml < ms) ∧ rsi ≤ 70 ∧ cur.close ≤ bbu ∧
       (macd' ≤ sig' ∧ sig < macd) ∧ vma < cur.volume)) := by
  rw [List.get?_eq_getElem?] at hcur hprev
  simp [buy_signal, golden_cross, macd_bullish, prevRow, hi, hcur, hprev,
    h1, h2, h3, h4, h5, h6, h7, h8, h9, h10, h11, gtO, leO, not_lt]
  tauto

/-- C2 witness: the characterisation instantiated at index 1 of the
concrete two-row indicator dataframe, where all five conditions hold
(and the signal is indeed true). -/
theorem C2_buy_signal_iff_witness :
    wIndDf.get? 1 = some wRowCur ∧
    (buy_signal wIndDf 1 = true ↔
      (((10 : ℚ) ≤ 11 ∧ (11 : ℚ) < 12) ∧ (50 : ℚ) ≤ 70 ∧
       wRowCur.close ≤ 120 ∧ ((1 : ℚ) ≤ 2 ∧ (2 : ℚ) < 3) ∧
       (100 : ℚ) < wRowCur.volume)) :=
  ⟨rfl,
   C2_buy_signal_iff wIndDf 1 wRowCur wRowPrev (by norm_num) rfl rfl
     12 11 10 11 50 120 3 2 1 2 100
     rfl rfl rfl rfl rfl rfl rfl rfl rfl rfl rfl⟩

/-- C7: a sell whose realized profit is strictly positive increments
`winning_trades` and any other sell (zero profit included) increments
`losing_trades`; and with the profit-factor field at its zero default,
`calculate_profit_factor` yields gross wins over gross losses when at
least one losing trade exists (with the division-by-zero fallback 0 when
all losing trades have zero profit), and 0 when there are none. -/
theorem C7_win_loss_counters_and_profit_factor :
    (∀ (s : EngineState) (price : ℚ) (t : Nat) (side : Side),
        s.position = some side →
        (execute_sell price t s).results.winning_trades =
          s.results.winning_trades +
            (if 0 < sellProfit price s then 1 else 0) ∧
        (execute_sell price t s).results.losing_trades =
          s.results.losing_trades +
            (if 0 < sellProfit price s then 0 else 1)) ∧
    (∀ s : EngineState, s.results.profit_factor = 0 →
        (losing_profits s.trades ≠ [] →
          (calculate_profit_factor s).results.profit_factor =
            (winning_profits s.trades).sum / (losing_profits s.trades).sum) ∧
        (losing_profits s.trades = [] →
          (calculate_profit_factor s).results.profit_factor = 0)) := by
  constructor
  · intro s price t side hpos
    cases side with
    | long =>
      by_cases hp :
          (0 : ℚ) < s.position_size * price -
            s.position_size * s.entry_price <;>
        simp [execute_sell, hpos, sellProfit, hp]
    | short =>
      by_cases hp :
          (0 : ℚ) < s.position_size * s.entry_price -
            s.position_size * price <;>
        simp [execute_sell, hpos, sellProfit, hp]
  · intro s hpf
    have hnonneg : (0 : ℚ) ≤ (losing_profits s.trades).sum := by
      apply List.sum_nonneg
      intro x hx
      simp only [losing_profits, List.mem_map] at hx
      obtain ⟨p, _, hpx⟩ := hx
      rw [← hpx]
      exact abs_nonneg p
    constructor
    · intro _
      by_cases hl : (0 : ℚ) < (losing_profits s.trades).sum
      · simp [calculate_profit_factor, hl]
      · have hz : (losing_profits s.trades).sum = 0 :=
          le_antisymm (not_lt.mp hl) hnonneg
        simp [calculate_profit_factor, hl, hpf, hz]
    · intro he
      simp [calculate_profit_factor, he, hpf]

/-- C7 witness: the counter update instantiated on the concrete open-long
state (a winning sell at 110), and the profit-factor fallback
instantiated on the state after the round trip, which has no losing
trades. -/
theorem C7_win_loss_counters_and_profit_factor_witness :
    sLong100.position = some Side.long ∧
    ((execute_sell 110 1 sLong100).results.winning_trades =
       sLong100.results.winning_trades +
         (if 0 < sellProfit 110 sLong100 then 1 else 0) ∧
     (execute_sell 110 1 sLong100).results.losing_trades =
       sLong100.results.losing_trades +
         (if 0 < sellProfit 110 sLong100 then 0 else 1)) ∧
    sRoundTrip.results.profit_factor = 0 ∧
    (losing_profits sRoundTrip.trades = [] →
      (calculate_profit_factor sRoundTrip).results.profit_factor = 0) :=
  ⟨by rw [sLong100_eq],
   C7_win_loss_counters_and_profit_factor.1 sLong100 110 1 Side.long
     (by rw [sLong100_eq]),
   by rw [sRoundTrip_eq],
   (C7_win_loss_counters_and_profit_factor.2 sRoundTrip
     (by rw [sRoundTrip_eq])).2⟩

end TradingSystem
